import Mathlib

/-!
Shallow embedding of the acquisition orchestration core of `src/234235.py`
(MyMusicNow): source classification, resilient HTTP fetching with backoff,
provider dispatch for direct URLs, and the search-query fallback cascade.

Python strings are modelled as Lean `String`; the handful of string methods
the source uses (`startswith`, `in`, `lower`, `endswith`, `split`,
`os.path.join`, `os.path.basename`, `os.path.splitext`) are modelled below.
External effects (PATH lookups, subprocess exit status, HTTP responses,
file writes) are supplied by an `Env` oracle; Python exceptions are an
explicit outcome type distinguishing `Exception` subclasses (caught by
`except Exception`) from `SystemExit` (a `BaseException` that
`except Exception` does not catch).
-/

set_option linter.unusedVariables false

/-- `isPrefixL pat l` : `pat` is a prefix of `l` (char lists). -/
def isPrefixL : List Char → List Char → Bool
  | [], _ => true
  | _ :: _, [] => false
  | a :: as, b :: bs => a == b && isPrefixL as bs

/-- Python `pat in s` (substring containment), on char lists. -/
def containsL (pat : List Char) : List Char → Bool
  | [] => isPrefixL pat []
  | b :: bs => isPrefixL pat (b :: bs) || containsL pat bs

/-- Python `s.startswith(pat)`. -/
def pyStartsWith (s pat : String) : Bool := isPrefixL pat.data s.data

/-- Python `pat in s`. -/
def pyIn (pat s : String) : Bool := containsL pat.data s.data

/-- Python `s.endswith(pat)`. -/
def pyEndsWith (s pat : String) : Bool := isPrefixL pat.data.reverse s.data.reverse

/-- Python `s.lower()` (ASCII case folding, as used by the source). -/
def pyLower (s : String) : String := ⟨s.data.map Char.toLower⟩

/-- One simulated answer of the HTTP collaborator to one `requests.get` call:
either a response carrying a status code, or a raised
`requests.exceptions.RequestException` (connection reset, timeout, DNS). -/
inductive HttpEvent where
  | status (code : Nat)
  | transportError
deriving DecidableEq

/-- The statuses for which `response.raise_for_status()` raises
`requests.exceptions.HTTPError` (a `RequestException`): 400 ≤ code < 600. -/
def raisesForStatus (code : Nat) : Bool := decide (400 ≤ code) && decide (code < 600)

/-- The events on which the `robust_get` loop sleeps, doubles the backoff and
retries: a 429 response (handled explicitly), a transport-level
`RequestException`, or any other status for which `raise_for_status` raises
`HTTPError` inside the `try` block. -/
def retryTrigger : HttpEvent → Bool
  | .transportError => true
  | .status c => c == 429 || raisesForStatus c

/-- The loop of `robust_get` (src lines 30-43), consuming one `HttpEvent` per
`requests.get` call, carrying the current `backoff`.  A 429 response hits the
explicit rate-limit branch; any status with `raisesForStatus` makes
`raise_for_status()` raise `HTTPError` inside the `try`, caught by
`except RequestException`; a raised transport error is caught by the same
handler; each of these sleeps `backoff`, doubles it, and retries.  Any other
status returns.  Result: `some (code, sleeps)` when the loop returns a
response (`sleeps` = the `time.sleep` durations, in order); `none` when the
simulated event list is exhausted while the loop is still retrying (the real
loop would block awaiting further responses). -/
def robustGetLoop : List HttpEvent → Nat → Option (Nat × List Nat)
  | [], _ => none
  | e :: rest, backoff =>
    if retryTrigger e then
      match robustGetLoop rest (backoff * 2) with
      | some (c, sleeps) => some (c, backoff :: sleeps)
      | none => none
    else
      match e with
      | .status c => some (c, [])
      | .transportError => none

/-- `robust_get` (src lines 28-43): the loop entered with `backoff = 1`. -/
def robust_get (events : List HttpEvent) : Option (Nat × List Nat) :=
  robustGetLoop events 1

example : robust_get [.status 429, .status 429, .status 200] = some (200, [1, 2]) := by decide

example : robust_get [.status 404, .status 200] = some (200, [1]) := by decide

example : robust_get [.status 500, .transportError, .status 304] = some (304, [1, 2]) := by decide

/-- `os.path.join(a, b)` for the relative second arguments the source builds. -/
def pathJoin (a b : String) : String := a ++ "/" ++ b

/-- Python `s.split(sep)` for a one-character separator, on char lists:
never empty, keeps empty segments. -/
def splitOnChar (sep : Char) : List Char → List (List Char)
  | [] => [[]]
  | c :: cs =>
    match splitOnChar sep cs with
    | [] => if c == sep then [[], []] else [[c]]
    | h :: t => if c == sep then [] :: h :: t else (c :: h) :: t

/-- The last segment of `s.split(sep)` (Python index `[-1]`). -/
def lastSegment (sep : Char) (s : String) : String :=
  ⟨(splitOnChar sep s.data).getLastD []⟩

/-- `os.path.basename(p)`: the part after the last `/`. -/
def pyBasename (p : String) : String := lastSegment '/' p

/-- Index of the last `.` in a char list, if any. -/
def lastDotIdx (l : List Char) : Option Nat :=
  match l.reverse.findIdx? (fun c => c == '.') with
  | some j => some (l.length - 1 - j)
  | none => none

/-- `os.path.splitext(b)[0]` for a basename `b` (no separators): the part
before the last `.`, except that a candidate extension preceded only by dots
is not split off (CPython rule: the dot must have a non-dot character before
it in the filename). -/
def splitextStem (b : String) : String :=
  match lastDotIdx b.data with
  | none => b
  | some i =>
    if (b.data.take i).any (fun c => c != '.') then ⟨b.data.take i⟩ else b

example : splitextStem "talk42.wav" = "talk42" := by decide
example : splitextStem ".bashrc" = ".bashrc" := by decide
example : splitextStem "a.b.c" = "a.b" := by decide
example : splitextStem "noext" = "noext" := by decide

/-- A raised Python exception, as far as the orchestration control flow can
observe it.  `systemExit` models `SystemExit` (raised by `sys.exit`), a
`BaseException` that `except Exception` does NOT catch; the others are
`Exception` subclasses. -/
inductive PyExn where
  | typeError (msg : String)
  | exception (msg : String)
  | systemExit (code : Nat)
deriving DecidableEq

/-- Whether `except Exception` catches this exception: true for every
`Exception` subclass, false for `SystemExit`. -/
def PyExn.isException : PyExn → Bool
  | .systemExit _ => false
  | _ => true

/-- Outcome of evaluating a piece of the Python program: normal value, raised
exception, or blocked forever inside the unbounded `robust_get` retry loop
(when its simulated response list runs out). -/
inductive POutcome (α : Type) where
  | ok (a : α)
  | raised (e : PyExn)
  | blocked
deriving DecidableEq

/-- `terminal_output` (src lines 19-21) is defined with exactly one
parameter.  Python checks arity at call time: a call with any other number
of arguments raises `TypeError` before the body runs.  `callTerminalOutput`
models a call site with its argument list; printing itself has no observable
effect in the model. -/
def callTerminalOutput (args : List String) : POutcome Unit :=
  if args.length == 1 then .ok () else
    .raised (.typeError "terminal_output takes 1 positional argument but 2 were given")

/-- The provider adapters the orchestrator can invoke.  `soundcloud` is the
fourth search attempt (src lines 150-156), implemented by calling
`download_from_youtube` on an `scsearch:` expression. -/
inductive Provider where
  | spotify
  | tidal
  | youtube
  | soundcloud
  | directHttp
deriving DecidableEq

/-- Oracle for everything outside the orchestration core: which external
tools are on PATH, the exit status of each external tool run, the HTTP
collaborator events, and whether writing the streamed file succeeds. -/
structure Env where
  spotdlOnPath : Bool
  tidalDlOnPath : Bool
  spotdlRunOk : Bool
  tidalDlRunOk : Bool
  ytOk : String → Bool
  ffmpegRunOk : Bool
  http : List HttpEvent
  writeOk : Bool

/-- `download_from_spotify` (src lines 88-96): if `spotdl` is not on PATH,
print and `sys.exit(1)` (SystemExit); otherwise run it, raising
`Exception` when the subprocess exits nonzero (`CalledProcessError` caught
and re-raised as `Exception`). -/
def download_from_spotify (env : Env) (url outdir : String) : POutcome Unit :=
  if env.spotdlOnPath then
    if env.spotdlRunOk then .ok () else .raised (.exception "Spotify download failed")
  else .raised (.systemExit 1)

/-- `download_from_tidal` (src lines 98-106): same shape as the Spotify
adapter, keyed on `tidal-dl`. -/
def download_from_tidal (env : Env) (url outdir : String) : POutcome Unit :=
  if env.tidalDlOnPath then
    if env.tidalDlRunOk then .ok () else .raised (.exception "Tidal download failed")
  else .raised (.systemExit 1)

/-- `download_from_youtube` (src lines 74-86): `yt_dlp` download of the given
target; failure raises a `DownloadError` (an `Exception`). -/
def download_from_youtube (env : Env) (url outdir : String) : POutcome Unit :=
  if env.ytOk url then .ok () else .raised (.exception "yt_dlp download failed")

/-- `local_filename` of `download_direct` (src line 52):
`url.split("/")[-1] or "downloaded_file"`. -/
def localFilename (url : String) : String :=
  let n := lastSegment '/' url
  if n == "" then "downloaded_file" else n

/-- `download_direct` (src lines 51-62): stream `robust_get(url)` to
`outdir/filename` and return that path; any `Exception` during the write is
caught and re-raised as `Exception`; if `robust_get` never returns the whole
call blocks. -/
def download_direct (env : Env) (url outdir : String) : POutcome String :=
  match robust_get env.http with
  | none => .blocked
  | some _ =>
    if env.writeOk then .ok (pathJoin outdir (localFilename url))
    else .raised (.exception "Direct download failed")

/-- `convert_to_mp3` (src lines 64-72): build the output path from the stem
of the input basename plus `.mp3`, invoke ffmpeg on (input, output), raise
`Exception` when ffmpeg exits nonzero.  The second component records the
ffmpeg invocation (input path, output path) — exactly one per call,
performed whether or not it succeeds. -/
def convert_to_mp3 (env : Env) (inputFile outdir : String) :
    POutcome String × List (String × String) :=
  let base := splitextStem (pyBasename inputFile)
  let outputFile := pathJoin outdir (base ++ ".mp3")
  if env.ffmpegRunOk then (.ok outputFile, [(inputFile, outputFile)])
  else (.raised (.exception "FFmpeg conversion failed"), [(inputFile, outputFile)])

/-- `yt_query` (src line 144): playlist-style search expression iff the
lowercased query contains `album` or `playlist`. -/
def yt_query (query : String) : String :=
  if pyIn "album" (pyLower query) || pyIn "playlist" (pyLower query) then
    "ytsearchplaylist:" ++ query
  else "ytsearch:" ++ query

/-- What one `try`/`except Exception` block of the search cascade
(src lines 131-156) does, given the outcome of the provider attempt inside
it: on success, `return`; on a raised `Exception`, run the handler — whose
two-argument `terminal_output(...msg..., e)` call itself raises `TypeError`,
which propagates — and otherwise fall through to the continuation `k`; a
`SystemExit` propagates uncaught.  The provider `p` is recorded as invoked
in every case. -/
def tryStep (attempt : POutcome Unit) (p : Provider) (handlerMsg : String)
    (k : POutcome Unit × List Provider) : POutcome Unit × List Provider :=
  match attempt with
  | .ok _ => (.ok (), [p])
  | .blocked => (.blocked, [p])
  | .raised e =>
    if e.isException then
      match callTerminalOutput [handlerMsg, "e"] with
      | .raised e2 => (.raised e2, [p])
      | .ok _ => (k.1, p :: k.2)
      | .blocked => (.blocked, [p])
    else (.raised e, [p])

/-- Src line 157: `terminal_output("All searches failed for:", query)` —
again a two-argument call to the one-parameter function. -/
def searchExhausted (query : String) : POutcome Unit :=
  match callTerminalOutput ["All searches failed for:", query] with
  | .raised e => .raised e
  | _ => .ok ()

/-- The four-provider `try`/`except` cascade of the search branch
(src lines 131-157), as written, together with the list of providers
actually invoked, in order. -/
def searchCascade (env : Env) (query outdir : String) : POutcome Unit × List Provider :=
  tryStep (download_from_spotify env query outdir) .spotify "Spotify search failed:"
    (tryStep (download_from_tidal env query outdir) .tidal "Tidal search failed:"
      (tryStep (download_from_youtube env (yt_query query) outdir) .youtube "YouTube search failed:"
        (tryStep (download_from_youtube env ("scsearch:" ++ query) outdir) .soundcloud
          "SoundCloud search failed:"
          (searchExhausted query, []))))

/-- Execution trace of one `process_entry` call: the provider adapters
invoked (in order) and the ffmpeg conversions performed (input, output). -/
structure Trace where
  providers : List Provider
  conversions : List (String × String)
deriving DecidableEq

/-- `process_entry` (src lines 108-157).  URL inputs dispatch on substring
tests over the whole input to exactly one adapter, with no surrounding
`try`; the direct-URL branch downloads, then converts unless the lowercased
path already ends in `.mp3`.  Non-URL inputs first hit
`terminal_output("Processing search query:", query)` (src line 130) — a
two-argument call to the one-parameter function, raising `TypeError` —
before the cascade. -/
def process_entry (env : Env) (query outdir : String) : POutcome Unit × Trace :=
  if pyStartsWith query "http://" || pyStartsWith query "https://" then
    if pyIn "spotify.com" query then
      match download_from_spotify env query outdir with
      | .ok _ => (.ok (), ⟨[.spotify], []⟩)
      | .raised e => (.raised e, ⟨[.spotify], []⟩)
      | .blocked => (.blocked, ⟨[.spotify], []⟩)
    else if pyIn "tidal.com" query then
      match download_from_tidal env query outdir with
      | .ok _ => (.ok (), ⟨[.tidal], []⟩)
      | .raised e => (.raised e, ⟨[.tidal], []⟩)
      | .blocked => (.blocked, ⟨[.tidal], []⟩)
    else if pyIn "youtube.com" query || pyIn "youtu.be" query then
      match download_from_youtube env query outdir with
      | .ok _ => (.ok (), ⟨[.youtube], []⟩)
      | .raised e => (.raised e, ⟨[.youtube], []⟩)
      | .blocked => (.blocked, ⟨[.youtube], []⟩)
    else
      match download_direct env query outdir with
      | .blocked => (.blocked, ⟨[.directHttp], []⟩)
      | .raised e => (.raised e, ⟨[.directHttp], []⟩)
      | .ok downloadedFile =>
        if pyEndsWith (pyLower downloadedFile) ".mp3" then
          (.ok (), ⟨[.directHttp], []⟩)
        else
          match convert_to_mp3 env downloadedFile outdir with
          | (.ok _, convs) => (.ok (), ⟨[.directHttp], convs⟩)
          | (.raised e, convs) => (.raised e, ⟨[.directHttp], convs⟩)
          | (.blocked, convs) => (.blocked, ⟨[.directHttp], convs⟩)
  else
    match callTerminalOutput ["Processing search query:", query] with
    | .raised e => (.raised e, ⟨[], []⟩)
    | _ =>
      match searchCascade env query outdir with
      | (r, ps) => (r, ⟨ps, []⟩)

/-- All tools installed, all runs succeed, one 200 response, write succeeds. -/
def envAllGood : Env :=
  { spotdlOnPath := true, tidalDlOnPath := true, spotdlRunOk := true,
    tidalDlRunOk := true, ytOk := fun _ => true, ffmpegRunOk := true,
    http := [.status 200], writeOk := true }

/-- `spotdl` missing from PATH; everything else healthy. -/
def envNoSpotdl : Env :=
  { spotdlOnPath := false, tidalDlOnPath := true, spotdlRunOk := true,
    tidalDlRunOk := true, ytOk := fun _ => true, ffmpegRunOk := true,
    http := [.status 200], writeOk := true }

/-- Every tool installed but every external run fails. -/
def envAllRunsFail : Env :=
  { spotdlOnPath := true, tidalDlOnPath := true, spotdlRunOk := false,
    tidalDlRunOk := false, ytOk := fun _ => false, ffmpegRunOk := false,
    http := [.status 200], writeOk := true }

example :
    process_entry envAllGood "some lecture" "." =
      (.raised (.typeError "terminal_output takes 1 positional argument but 2 were given"),
       ⟨[], []⟩) := by decide

example :
    searchCascade envNoSpotdl "some lecture" "." = (.raised (.systemExit 1), [.spotify]) := by
  decide

example :
    searchCascade envAllRunsFail "some lecture" "." =
      (.raised (.typeError "terminal_output takes 1 positional argument but 2 were given"),
       [.spotify]) := by decide

example : searchCascade envAllGood "some lecture" "." = (.ok (), [.spotify]) := by decide

example :
    process_entry envAllGood "https://example.com/audio/talk42.wav" "/tmp/out" =
      (.ok (), ⟨[.directHttp], [("/tmp/out/talk42.wav", "/tmp/out/talk42.mp3")]⟩) := by decide

example :
    process_entry envAllGood "https://example.com/audio/talk42.MP3" "/tmp/out" =
      (.ok (), ⟨[.directHttp], []⟩) := by decide

example :
    process_entry envNoSpotdl "https://open.spotify.com/track/1" "." =
      (.raised (.systemExit 1), ⟨[.spotify], []⟩) := by decide

example :
    process_entry envAllGood "https://tidal.com/browse?from=spotify.com" "." =
      (.ok (), ⟨[.spotify], []⟩) := by decide

/-! ## Helper lemmas -/

lemma isPrefixL_self_append (l t : List Char) : isPrefixL l (l ++ t) = true := by
  induction l with
  | nil => rfl
  | cons a as ih => simp [isPrefixL, ih]

lemma pyStartsWith_append (pat s : String) : pyStartsWith (pat ++ s) pat = true := by
  simp [pyStartsWith, String.data_append, isPrefixL_self_append]

lemma pyEndsWith_append (s pat : String) : pyEndsWith (s ++ pat) pat = true := by
  simp [pyEndsWith, String.data_append, List.reverse_append, isPrefixL_self_append]

/-- Soundness of the `robust_get` loop, generalized over the entry backoff:
whenever it returns `(c, sleeps)`, the returned status is not a retry
trigger, it came from the event right after the consumed prefix, every
consumed event was a retry trigger, and the sleeps double from `b`. -/
lemma robustGetLoop_sound :
    ∀ (events : List HttpEvent) (b c : Nat) (sleeps : List Nat),
      robustGetLoop events b = some (c, sleeps) →
      retryTrigger (.status c) = false ∧
      events.get? sleeps.length = some (.status c) ∧
      (∀ i, i < sleeps.length → ∃ e, events.get? i = some e ∧ retryTrigger e = true) ∧
      (∀ i, i < sleeps.length → sleeps.get? i = some (b * 2 ^ i)) := by
  intro events
  induction events with
  | nil => intro b c sleeps h; simp [robustGetLoop] at h
  | cons e rest ih =>
    intro b c sleeps h
    simp only [robustGetLoop] at h
    by_cases htr : retryTrigger e = true
    · rw [if_pos htr] at h
      cases heq : robustGetLoop rest (b * 2) with
      | none => rw [heq] at h; exact absurd h (by simp)
      | some p =>
        obtain ⟨c', sleeps'⟩ := p
        rw [heq] at h
        simp only [Option.some.injEq, Prod.mk.injEq] at h
        obtain ⟨hc, hs⟩ := h
        rw [← hc, ← hs]
        obtain ⟨ih1, ih2, ih3, ih4⟩ := ih (b * 2) c' sleeps' heq
        refine ⟨ih1, ?_, ?_, ?_⟩
        · simpa using ih2
        · intro i hi
          cases i with
          | zero => exact ⟨e, rfl, htr⟩
          | succ j =>
            simp only [List.length_cons, Nat.succ_lt_succ_iff] at hi
            simpa using ih3 j hi
        · intro i hi
          cases i with
          | zero => simp
          | succ j =>
            simp only [List.length_cons, Nat.succ_lt_succ_iff] at hi
            have := ih4 j hi
            simpa [Nat.mul_assoc, Nat.pow_succ, Nat.mul_comm, Nat.mul_left_comm] using this
    · rw [if_neg htr] at h
      cases e with
      | transportError => exact absurd rfl htr
      | status c' =>
        simp only [Option.some.injEq, Prod.mk.injEq] at h
        obtain ⟨hc, hs⟩ := h
        rw [← hc, ← hs]
        refine ⟨by simpa using htr, rfl, ?_, ?_⟩
        · intro i hi; exact absurd hi (Nat.not_lt_zero i)
        · intro i hi; exact absurd hi (Nat.not_lt_zero i)

/-! ## Claim theorems -/

/-- C8: given the simulated response sequence `[429, 429, 200]`, `robust_get`
returns the 200 response on the third attempt, having slept exactly 1 second
after the first 429 and 2 seconds after the second (doubling backoff
starting at 1), and consumes no further responses. -/
theorem c8_backoff_429_429_200 :
    robust_get [.status 429, .status 429, .status 200] = some (200, [1, 2]) ∧
    robust_get [.status 429, .status 429] = none := by decide

/-- C4 counterexample: the claim says that on a non-2xx status other than
429 (here 404) `robust_get` returns that response normally without retrying;
in fact `raise_for_status()` raises `HTTPError` inside the `try` block, the
`except RequestException` handler sleeps 1 second and retries, and the fetch
returns the NEXT response (the 200), not the 404. -/
theorem c4_counterexample_404_retried :
    robust_get [.status 404, .status 200] = some (200, [1]) ∧
    robust_get [.status 404, .status 200] ≠ some (404, []) := by decide

/-- C4 amended: `robust_get` sleeps and retries with doubling backoff
(1, 2, 4, ...) on HTTP 429, on transport-level failures, AND on every other
HTTP error status in 400..599 (via `raise_for_status` inside the `try`); it
returns normally exactly at the first response whose status is outside
400..599.  Formally: whenever it returns `(c, sleeps)`, the returned status
is outside 400..599, it is the event right after the consumed prefix, every
consumed event was a 429 / transport error / 4xx-5xx status, and the i-th
sleep is `2 ^ i`. -/
theorem c4_amended_retry_on_all_http_errors (events : List HttpEvent) (c : Nat)
    (sleeps : List Nat) (h : robust_get events = some (c, sleeps)) :
    (c < 400 ∨ 600 ≤ c) ∧
    events.get? sleeps.length = some (.status c) ∧
    (∀ i, i < sleeps.length → ∃ e, events.get? i = some e ∧ retryTrigger e = true) ∧
    (∀ i, i < sleeps.length → sleeps.get? i = some (2 ^ i)) := by
  obtain ⟨h1, h2, h3, h4⟩ := robustGetLoop_sound events 1 c sleeps h
  refine ⟨?_, h2, h3, ?_⟩
  · simp only [retryTrigger, raisesForStatus, Bool.or_eq_false_iff, Bool.and_eq_false_iff,
      decide_eq_false_iff_not, not_le, not_lt, beq_eq_false_iff_ne] at h1
    omega
  · intro i hi
    simpa using h4 i hi

/-- Witness for the C4 amended theorem at the concrete sequence
`[500, transport error, 200]`. -/
theorem c4_amended_witness :
    ((200 : Nat) < 400 ∨ 600 ≤ 200) ∧
    [HttpEvent.status 500, HttpEvent.transportError, HttpEvent.status 200].get?
      ([1, 2] : List Nat).length = some (.status 200) ∧
    (∀ i, i < ([1, 2] : List Nat).length →
      ∃ e, [HttpEvent.status 500, HttpEvent.transportError, HttpEvent.status 200].get? i =
        some e ∧ retryTrigger e = true) ∧
    (∀ i, i < ([1, 2] : List Nat).length → ([1, 2] : List Nat).get? i = some (2 ^ i)) :=
  c4_amended_retry_on_all_http_errors
    [HttpEvent.status 500, HttpEvent.transportError, HttpEvent.status 200] 200 [1, 2]
    (by decide)

/-- C2: every input that does not begin with `http://` or `https://` takes
the search branch, whose first statement is the two-argument call
`terminal_output("Processing search query:", query)` to the one-parameter
function `terminal_output`; it raises `TypeError` with no provider invoked
and no conversion performed, so the fallback cascade is unreachable. -/
theorem c2_search_branch_raises_type_error (env : Env) (query outdir : String)
    (h : (pyStartsWith query "http://" || pyStartsWith query "https://") = false) :
    process_entry env query outdir =
      (.raised (.typeError "terminal_output takes 1 positional argument but 2 were given"),
       ⟨[], []⟩) := by
  rw [process_entry, h]
  rfl

/-- Witness for C2 at the concrete search query `"hello world"`. -/
theorem c2_witness :
    process_entry envAllGood "hello world" "." =
      (.raised (.typeError "terminal_output takes 1 positional argument but 2 were given"),
       ⟨[], []⟩) :=
  c2_search_branch_raises_type_error envAllGood "hello world" "." (by decide)

/-- C1 (documents the code bug): with `spotdl` absent from PATH, the Spotify
attempt raises `SystemExit 1` (from `sys.exit(1)`), which `except Exception`
does not catch, so the cascade terminates the process with Tidal never
attempted — and in fact `process_entry` raises `TypeError` at src line 130
before any provider is invoked at all.  Both contradict the claim that the
attempt fails without terminating the process and the next provider is
still attempted. -/
theorem c1_tool_absent_terminates_process :
    download_from_spotify envNoSpotdl "lecture one" "/tmp/out" = .raised (.systemExit 1) ∧
    (PyExn.systemExit 1).isException = false ∧
    searchCascade envNoSpotdl "lecture one" "/tmp/out" =
      (.raised (.systemExit 1), [.spotify]) ∧
    (process_entry envNoSpotdl "lecture one" "/tmp/out").2.providers = [] := by decide

/-- C3 (documents the code bug): for a search query the code attempts NO
provider (src line 130 raises `TypeError` first); and even the cascade
itself (src lines 131-157), when Spotify fails with an ordinary `Exception`
(tools installed, nonzero exit), stops at the two-argument
`terminal_output("Spotify search failed:", e)` call in the handler — its
`TypeError` propagates, so Tidal, YouTube and SoundCloud are never
attempted.  Both contradict the claimed priority-order iteration that stops
only at the first success. -/
theorem c3_fallback_never_advances :
    (process_entry envAllRunsFail "some song" ".").2.providers = [] ∧
    searchCascade envAllRunsFail "some song" "." =
      (.raised (.typeError "terminal_output takes 1 positional argument but 2 were given"),
       [.spotify]) ∧
    searchCascade envAllGood "some song" "." = (.ok (), [.spotify]) := by decide

/-- C5 (documents the code bug): when every provider would fail, the
orchestrator produces no aggregate failure referencing the four providers
and their causes: `process_entry` raises `TypeError` before attempting any
provider, and even the exhaustion report at src line 157
(`terminal_output("All searches failed for:", query)`) is itself a broken
two-argument call that mentions only the query. -/
theorem c5_no_aggregate_failure :
    process_entry envAllRunsFail "another song" "out" =
      (.raised (.typeError "terminal_output takes 1 positional argument but 2 were given"),
       ⟨[], []⟩) ∧
    searchExhausted "another song" =
      .raised (.typeError "terminal_output takes 1 positional argument but 2 were given") := by
  decide

/-- Claim-side description of the URL dispatch for C10: the provider
substring table in the claimed order (Spotify, Tidal, YouTube), matched
against the entire input; the first row with a matching pattern wins, and an
unmatched URL goes to the DirectHttp adapter. -/
def providerPatternTable : List (List String × Provider) :=
  [(["spotify.com"], .spotify), (["tidal.com"], .tidal),
   (["youtube.com", "youtu.be"], .youtube)]

/-- The first provider in `providerPatternTable` order whose pattern occurs
anywhere in the input, defaulting to DirectHttp. -/
def firstMatchingProvider (query : String) : Provider :=
  match providerPatternTable.find? (fun row => row.1.any (fun pat => pyIn pat query)) with
  | some row => row.2
  | none => .directHttp

/-- On the URL branch, `process_entry` invokes exactly the first provider
whose identifying substring occurs anywhere in the input (Spotify, Tidal,
YouTube order, DirectHttp default), whatever the outcome. -/
lemma url_dispatch_trace (env : Env) (query outdir : String)
    (h : (pyStartsWith query "http://" || pyStartsWith query "https://") = true) :
    (process_entry env query outdir).2.providers = [firstMatchingProvider query] := by
  rw [process_entry, h]
  by_cases h1 : pyIn "spotify.com" query = true
  · have hfm : firstMatchingProvider query = .spotify := by
      simp [firstMatchingProvider, providerPatternTable, List.find?, h1]
    simp only [h1, if_true, hfm]
    cases download_from_spotify env query outdir <;> rfl
  · rw [Bool.not_eq_true] at h1
    by_cases h2 : pyIn "tidal.com" query = true
    · have hfm : firstMatchingProvider query = .tidal := by
        simp [firstMatchingProvider, providerPatternTable, List.find?, h1, h2]
      simp only [h1, h2, if_true, Bool.false_eq_true, if_false, hfm]
      cases download_from_tidal env query outdir <;> rfl
    · rw [Bool.not_eq_true] at h2
      by_cases h3 : (pyIn "youtube.com" query || pyIn "youtu.be" query) = true
      · have hfm : firstMatchingProvider query = .youtube := by
          rcases Bool.or_eq_true_iff.mp h3 with h3a | h3a <;>
            simp [firstMatchingProvider, providerPatternTable, List.find?, h1, h2, h3a]
        simp only [h1, h2, h3, if_true, Bool.false_eq_true, if_false, hfm]
        cases download_from_youtube env query outdir <;> rfl
      · rw [Bool.not_eq_true, Bool.or_eq_false_iff] at h3
        have hfm : firstMatchingProvider query = .directHttp := by
          simp [firstMatchingProvider, providerPatternTable, List.find?, h1, h2, h3.1, h3.2]
        simp only [h1, h2, h3.1, h3.2, Bool.or_self, Bool.false_eq_true, if_false, hfm]
        cases hd : download_direct env query outdir with
        | blocked => rfl
        | raised e => rfl
        | ok f =>
          by_cases hm : pyEndsWith (pyLower f) ".mp3" = true
          · simp only [hm, if_true]
          · rw [Bool.not_eq_true] at hm
            simp only [hm, Bool.false_eq_true, if_false, convert_to_mp3]
            cases hff : env.ffmpegRunOk <;> simp

/-- C7: for every input classified as a direct URL (it begins with
`http://` or `https://`), exactly one provider adapter is invoked,
regardless of outcome — the trace of invoked providers always has length
one, so success is terminal and failure triggers no fallback. -/
theorem c7_direct_url_exactly_one_provider (env : Env) (query outdir : String)
    (h : (pyStartsWith query "http://" || pyStartsWith query "https://") = true) :
    (process_entry env query outdir).2.providers.length = 1 := by
  rw [url_dispatch_trace env query outdir h]
  rfl

/-- Witness for C7: a YouTube URL, with every outcome healthy. -/
theorem c7_witness :
    (pyStartsWith "https://youtu.be/abc" "http://" ||
      pyStartsWith "https://youtu.be/abc" "https://") = true ∧
    (process_entry envAllGood "https://youtu.be/abc" ".").2.providers.length = 1 :=
  ⟨by decide, c7_direct_url_exactly_one_provider envAllGood "https://youtu.be/abc" "." (by decide)⟩

/-- C10: URL dispatch tests the provider-identifying substrings against the
ENTIRE input string, in the fixed order Spotify, Tidal, YouTube, DirectHttp
default: the provider invoked is always the first one in that order whose
substring occurs anywhere in the input. -/
theorem c10_url_dispatch_first_match_whole_string (env : Env) (query outdir : String)
    (h : (pyStartsWith query "http://" || pyStartsWith query "https://") = true) :
    (process_entry env query outdir).2.providers = [firstMatchingProvider query] :=
  url_dispatch_trace env query outdir h

/-- Witness for C10 at a URL whose host belongs to Tidal but which carries
`spotify.com` in a query parameter: Spotify, first in the order, is the
provider invoked. -/
theorem c10_witness :
    (process_entry envAllGood "https://tidal.com/browse?from=spotify.com" ".").2.providers =
      [firstMatchingProvider "https://tidal.com/browse?from=spotify.com"] ∧
    firstMatchingProvider "https://tidal.com/browse?from=spotify.com" = .spotify :=
  ⟨c10_url_dispatch_first_match_whole_string envAllGood
      "https://tidal.com/browse?from=spotify.com" "." (by decide),
   by decide⟩

/-- C6: on the DirectHttp branch (a URL owned by no named provider), with
the fetch returning and the write succeeding: if the downloaded file path
already ends case-insensitively in `.mp3`, the entry succeeds with the file
untouched and ffmpeg is never invoked; otherwise ffmpeg is invoked exactly
once, its input being the downloaded file and its output the same basename
stem under the destination with the `.mp3` extension. -/
theorem c6_direct_http_normalizer (env : Env) (query outdir : String)
    (hurl : (pyStartsWith query "http://" || pyStartsWith query "https://") = true)
    (h1 : pyIn "spotify.com" query = false)
    (h2 : pyIn "tidal.com" query = false)
    (h3 : (pyIn "youtube.com" query || pyIn "youtu.be" query) = false)
    (resp : Nat × List Nat)
    (h4 : robust_get env.http = some resp)
    (h5 : env.writeOk = true) :
    (pyEndsWith (pyLower (pathJoin outdir (localFilename query))) ".mp3" = true →
      process_entry env query outdir = (.ok (), ⟨[.directHttp], []⟩)) ∧
    (pyEndsWith (pyLower (pathJoin outdir (localFilename query))) ".mp3" = false →
      (process_entry env query outdir).2.conversions =
        [(pathJoin outdir (localFilename query),
          pathJoin outdir
            (splitextStem (pyBasename (pathJoin outdir (localFilename query))) ++ ".mp3"))] ∧
      pyEndsWith
        (pathJoin outdir
          (splitextStem (pyBasename (pathJoin outdir (localFilename query))) ++ ".mp3"))
        ".mp3" = true) := by
  have hor : (pyIn "youtube.com" query || pyIn "youtu.be" query) = false := h3
  rw [Bool.or_eq_false_iff] at hor
  have hdd : download_direct env query outdir = .ok (pathJoin outdir (localFilename query)) := by
    rw [download_direct, h4, h5]
    rfl
  constructor
  · intro hm
    rw [process_entry, hurl]
    simp only [h1, h2, hor.1, hor.2, Bool.or_self, Bool.false_eq_true, if_false, hdd, hm,
      if_true]
  · intro hm
    constructor
    · rw [process_entry, hurl]
      simp only [h1, h2, hor.1, hor.2, Bool.or_self, Bool.false_eq_true, if_false, hdd, hm,
        convert_to_mp3]
      cases hff : env.ffmpegRunOk <;> simp
    · rw [pathJoin, ← String.append_assoc]
      exact pyEndsWith_append _ ".mp3"

/-- Witness for C6 at `"https://example.com/audio/talk42.wav"`: the `.wav`
name is not canonical, so ffmpeg is invoked exactly once, on
`/tmp/out/talk42.wav` producing `/tmp/out/talk42.mp3`. -/
theorem c6_witness :
    pyEndsWith
      (pyLower (pathJoin "/tmp/out" (localFilename "https://example.com/audio/talk42.wav")))
      ".mp3" = false ∧
    (process_entry envAllGood "https://example.com/audio/talk42.wav" "/tmp/out").2.conversions =
      [(pathJoin "/tmp/out" (localFilename "https://example.com/audio/talk42.wav"),
        pathJoin "/tmp/out"
          (splitextStem
            (pyBasename
              (pathJoin "/tmp/out" (localFilename "https://example.com/audio/talk42.wav"))) ++
           ".mp3"))] :=
  ⟨by decide,
   ((c6_direct_http_normalizer envAllGood "https://example.com/audio/talk42.wav" "/tmp/out"
      (by decide) (by decide) (by decide) (by decide) (200, []) (by decide) (by decide)).2
     (by decide)).1⟩

/-- C9: the video-platform search expression built at src line 144 is
playlist-style (it begins with `ytsearchplaylist:`) exactly when the
lowercased query contains `album` or `playlist`; when the marker is absent
the plain `ytsearch:` expression is used. -/
theorem c9_playlist_marker_selects_playlist_search (query : String) :
    pyStartsWith (yt_query query) "ytsearchplaylist:" =
      (pyIn "album" (pyLower query) || pyIn "playlist" (pyLower query)) ∧
    ((pyIn "album" (pyLower query) || pyIn "playlist" (pyLower query)) = false →
      yt_query query = "ytsearch:" ++ query) := by
  by_cases hb : (pyIn "album" (pyLower query) || pyIn "playlist" (pyLower query)) = true
  · constructor
    · rw [yt_query, if_pos hb, hb]
      exact pyStartsWith_append "ytsearchplaylist:" query
    · intro hf
      rw [hb] at hf
      exact absurd hf (by decide)
  · rw [Bool.not_eq_true] at hb
    have hq : yt_query query = "ytsearch:" ++ query := by
      rw [yt_query, hb]
      rfl
    refine ⟨?_, fun _ => hq⟩
    rw [hq, hb]
    simp only [pyStartsWith]
    rw [String.data_append]
    rfl

/-- Witness for C9 at the markerless query `"intro to systems"`: the flag is
false and the plain expression is produced. -/
theorem c9_witness :
    (pyIn "album" (pyLower "intro to systems") ||
      pyIn "playlist" (pyLower "intro to systems")) = false ∧
    yt_query "intro to systems" = "ytsearch:" ++ "intro to systems" :=
  ⟨by decide, (c9_playlist_marker_selects_playlist_search "intro to systems").2 (by decide)⟩
